import Mathlib

/-!
Verification of the ticket orchestration engine of amida-dlh-ai-agent-dev.

The definitions below are a shallow embedding of the Python source:
* `src/backend/app/models/ticket.py` (ticket record and status enum),
* `src/backend/app/tasks/ai_orchestrator.py` (`process_ticket_async`,
  `process_ticket_task`, `mark_ticket_failed`, `log_audit_event`),
* `src/backend/app/tasks/ticket_processor.py` (`update_ticket_status_async`),
* `src/backend/app/api/v1/endpoints/tickets.py` (`reprocess_ticket`),
* `src/backend/app/services/websocket_manager.py` (`ConnectionManager`).

Database sessions are modelled by explicit state passing on a `DB` record;
timestamps (`datetime.utcnow()`) by a `clock : Nat` parameter; JSON payloads
by string association lists; raised exceptions by `Except String`.
The AI/GitHub/MCP/file capability clients are abstracted into a handler
oracle `Ticket → Except String HandlerOut`, exactly the boundary at which
`process_ticket_async` consumes them.
-/

namespace AmidaDLH

/-- Lifecycle status enum, from `TicketStatus` in `models/ticket.py`
(a `str` enum with values "pending", "processing", "completed",
"failed", "cancelled"). -/
inductive TicketStatus where
  | pending
  | processing
  | completed
  | failed
  | cancelled
deriving DecidableEq

/-- String value of a status, per the `str` enum values in the source. -/
def TicketStatus.str : TicketStatus → String
  | .pending => "pending"
  | .processing => "processing"
  | .completed => "completed"
  | .failed => "failed"
  | .cancelled => "cancelled"

/-- The `TicketStatus(status)` constructor call in
`update_ticket_status_async`: a valid value string yields the member,
anything else raises `ValueError` (modelled as `none`). -/
def TicketStatus.fromString : String → Option TicketStatus
  | "pending" => some .pending
  | "processing" => some .processing
  | "completed" => some .completed
  | "failed" => some .failed
  | "cancelled" => some .cancelled
  | _ => none

/-- Ticket record, from the `Ticket` model in `models/ticket.py`, restricted
to the columns the orchestration core reads or writes.  JSON columns are
string association lists, `DateTime` columns are `Option Nat` clock values. -/
structure Ticket where
  id : Nat
  task_type : String
  status : TicketStatus
  result_data : List (String × String)
  error_message : Option String
  completed_at : Option Nat
  updated_at : Nat
  ai_model_used : Option String
  tokens_used : Nat
deriving DecidableEq

/-- Audit record, from the `AuditLog` model in `models/audit.py`, restricted
to the columns `log_audit_event` writes. -/
structure AuditLog where
  action : String
  entity_type : String
  entity_id : Nat
  description : String
  metadata : List (String × String)
  timestamp : Nat
deriving DecidableEq

/-- Persistent state threaded through the embedded operations: the ticket
table, the append-only audit table, and the Celery queue
(`process_ticket_task.delay(id)` appends the ticket id). -/
structure DB where
  tickets : List Ticket
  audit_logs : List AuditLog
  queue : List Nat
deriving DecidableEq

/-- Loading a ticket by primary key (`db.get(Ticket, ticket_id)`). -/
def getTicket (db : DB) (ticket_id : Nat) : Option Ticket :=
  db.tickets.find? (fun t => t.id == ticket_id)

/-- Committing a mutated ticket row: the row with the same id is replaced. -/
def putTicket (db : DB) (t : Ticket) : DB :=
  { db with tickets := db.tickets.map (fun t0 => if t0.id == t.id then t else t0) }

/-- Embeds `log_audit_event` from `ai_orchestrator.py`: appends one
immutable `AuditLog` row. -/
def log_audit_event (db : DB) (action entity_type : String) (entity_id : Nat)
    (description : String) (metadata : List (String × String)) (clock : Nat) : DB :=
  { db with audit_logs := db.audit_logs ++
      [⟨action, entity_type, entity_id, description, metadata, clock⟩] }

/-- Result payload and token count returned by a task handler, the shape
every `process_*` helper in `ai_orchestrator.py` returns (`result` dict plus
its `tokens_used` entry). -/
structure HandlerOut where
  result : List (String × String)
  tokens_used : Nat
deriving DecidableEq

/-- Outcome of one executor run: the final database, the list of ticket ids
for which the executor called the Connection Multiplexer (the source body of
`process_ticket_async` contains no call to the websocket manager, so the
embedding records none), and the returned value or re-raised error. -/
structure RunResult where
  db : DB
  notifications : List Nat
  outcome : Except String (List (String × String))

/-- Embeds `process_ticket_async` from `ai_orchestrator.py` line by line:
load the ticket (raise if absent), set status to PROCESSING and commit
(no status check guards this write), append the `ai_processing_started`
audit row, run the handler for the task type; on success write results,
COMPLETED, `completed_at`, model metadata, and append
`ai_processing_completed`; on any handler exception write FAILED and the
error message, append `ai_processing_failed` with the error in metadata,
and re-raise. -/
def process_ticket_async (model_name job_id : String)
    (handler : Ticket → Except String HandlerOut)
    (clock : Nat) (db : DB) (ticket_id : Nat) : RunResult :=
  match getTicket db ticket_id with
  | none => ⟨db, [], .error ("Ticket " ++ toString ticket_id ++ " not found")⟩
  | some t =>
    let t1 : Ticket := { t with status := .processing }
    let db1 := putTicket db t1
    let db2 := log_audit_event db1 "ai_processing_started" "ticket" ticket_id
      ("AI processing started for " ++ t1.task_type ++ " task")
      [("celery_task_id", job_id)] clock
    match handler t1 with
    | .ok out =>
      let t2 : Ticket := { t1 with
        result_data := out.result
        status := .completed
        completed_at := some clock
        ai_model_used := some model_name
        tokens_used := out.tokens_used }
      let db3 := putTicket db2 t2
      let db4 := log_audit_event db3 "ai_processing_completed" "ticket" ticket_id
        "AI processing completed successfully"
        [("tokens_used", toString out.tokens_used)] clock
      ⟨db4, [], .ok out.result⟩
    | .error e =>
      let t2 : Ticket := { t1 with status := .failed, error_message := some e }
      let db3 := putTicket db2 t2
      let db4 := log_audit_event db3 "ai_processing_failed" "ticket" ticket_id
        ("AI processing failed: " ++ e) [("error", e)] clock
      ⟨db4, [], .error e⟩

/-- Embeds `mark_ticket_failed` from `ai_orchestrator.py`: set FAILED and
the error message when the ticket exists, otherwise do nothing. -/
def mark_ticket_failed (db : DB) (ticket_id : Nat) (error_message : String) : DB :=
  match getTicket db ticket_id with
  | none => db
  | some t => putTicket db { t with status := .failed, error_message := some error_message }

/-- Embeds the Celery entry point `process_ticket_task`: run the async body;
on an exception run `mark_ticket_failed` in a fresh session and re-raise. -/
def process_ticket_task (model_name job_id : String)
    (handler : Ticket → Except String HandlerOut)
    (clock : Nat) (db : DB) (ticket_id : Nat) :
    DB × Except String (List (String × String)) :=
  let r := process_ticket_async model_name job_id handler clock db ticket_id
  match r.outcome with
  | .ok v => (r.db, .ok v)
  | .error e => (mark_ticket_failed r.db ticket_id e, .error e)

/-- Embeds the body of the `reprocess_ticket` endpoint in
`endpoints/tickets.py` after its authorization checks (the HTTP layer and
authorization are external collaborators per the spec scope): absent ticket
is a 404 error; otherwise status is set to "pending", the error message and
result payload are cleared, `updated_at` is stamped, the row committed, and
the ticket id enqueued again.  The source performs no status check before
resetting. -/
def reprocess_ticket (clock : Nat) (db : DB) (ticket_id : Nat) : Except String DB :=
  match getTicket db ticket_id with
  | none => .error "Ticket not found"
  | some t =>
    let db1 := putTicket db { t with
      status := .pending
      error_message := none
      result_data := []
      updated_at := clock }
    .ok { db1 with queue := db1.queue ++ [ticket_id] }

/-- Attribute writes of `update_ticket_status_async` on the loaded row:
set the status, stamp `updated_at`, overwrite `result_data` only when the
argument is truthy (a non-empty dict), and set `completed_at` only when
the status string is "completed". -/
def updatedTicket (clock : Nat) (t : Ticket) (st : TicketStatus)
    (status : String) (result_data : Option (List (String × String))) : Ticket :=
  let t1 : Ticket := { t with status := st, updated_at := clock }
  let t2 : Ticket := match result_data with
    | some rd => if rd.isEmpty then t1 else { t1 with result_data := rd }
    | none => t1
  if status = "completed" then { t2 with completed_at := some clock } else t2

/-- Embeds `update_ticket_status_async` from `ticket_processor.py`:
load the ticket (raise if absent), convert the status string
(`TicketStatus(status)` raises on an invalid value), and commit the row
rewritten by `updatedTicket`. -/
def update_ticket_status_async (clock : Nat) (db : DB) (ticket_id : Nat)
    (status : String) (result_data : Option (List (String × String))) :
    Except String DB :=
  match getTicket db ticket_id with
  | none => .error ("Ticket " ++ toString ticket_id ++ " not found")
  | some t =>
    match TicketStatus.fromString status with
    | none => .error "invalid TicketStatus value"
    | some st => .ok (putTicket db (updatedTicket clock t st status result_data))

/-! Connection Multiplexer, from `ConnectionManager` in
`services/websocket_manager.py`.  Channel handles (`WebSocket` objects) and
identities (`user_id`) are modelled as natural numbers.  The transport
(`websocket.send_text`) is an oracle `sendOk : Nat → Bool`; a send on a
channel with `sendOk = false` raises, which the source catches per channel.
Each operation returns the new registry state together with the log of
(channel, message) pairs whose send succeeded. -/

/-- JSON message the manager delivers, with the fields the source ever
writes: the `type` discriminator and the optional `message`, `user_id`,
`ticket_id`, `data` and `timestamp` fields. -/
structure OutMsg where
  type : String
  message : Option String
  user_id : Option Nat
  ticket_id : Option Nat
  data : List (String × String)
  timestamp : Option String
deriving DecidableEq

/-- Inbound client message as `handle_client_message` reads it: every field
accessed with `.get`, hence optional. -/
structure ClientMsg where
  type : Option String
  timestamp : Option String
  ticket_id : Option Nat
deriving DecidableEq

/-- Registry state: `active_connections : user_id -> set of websockets` and
the reverse `websocket_users : websocket -> user_id`, the two dicts of
`ConnectionManager.__init__`. -/
structure ConnState where
  active_connections : AList (fun _ : Nat => Finset Nat)
  websocket_users : AList (fun _ : Nat => Nat)

/-- Python truthiness of an optional number: `None` and `0` are falsy. -/
def truthyNat : Option Nat → Bool
  | none => false
  | some n => n != 0

/-- Embeds `ConnectionManager.disconnect`: an unregistered websocket is a
no-op; otherwise the websocket is discarded from its user's set, the user
entry is deleted once the set is empty, and the reverse entry is deleted. -/
def disconnect (s : ConnState) (ws : Nat) : ConnState :=
  match s.websocket_users.lookup ws with
  | none => s
  | some user_id =>
    let ac := match s.active_connections.lookup user_id with
      | none => s.active_connections
      | some conns =>
        let conns' := conns.erase ws
        if conns' = ∅ then s.active_connections.erase user_id
        else s.active_connections.insert user_id conns'
    ⟨ac, s.websocket_users.erase ws⟩

/-- Embeds `ConnectionManager.send_personal_message`: try the send; on
failure catch and `disconnect` the websocket. -/
def send_personal_message (sendOk : Nat → Bool) (s : ConnState)
    (m : OutMsg) (ws : Nat) : ConnState × List (Nat × OutMsg) :=
  if sendOk ws then (s, [(ws, m)]) else (disconnect s ws, [])

/-- Embeds `ConnectionManager.connect`: register the websocket in the
user's set (created if absent) and in the reverse map, then send the
`connection_confirmed` message on that channel via
`send_personal_message`. -/
def connect (sendOk : Nat → Bool) (s : ConnState) (ws user_id : Nat) :
    ConnState × List (Nat × OutMsg) :=
  let conns := (s.active_connections.lookup user_id).getD ∅
  let s1 : ConnState :=
    ⟨s.active_connections.insert user_id (insert ws conns),
     s.websocket_users.insert ws user_id⟩
  send_personal_message sendOk s1
    ⟨"connection_confirmed", some "WebSocket connection established",
     some user_id, none, [], none⟩ ws

/-- Embeds `ConnectionManager.send_message_to_user`: nothing happens when
the user has no registry entry; otherwise each websocket in a copy of the
set gets a send, failures are collected, and the failed websockets are
disconnected after the loop. -/
def send_message_to_user (sendOk : Nat → Bool) (s : ConnState)
    (m : OutMsg) (user_id : Nat) : ConnState × List (Nat × OutMsg) :=
  match s.active_connections.lookup user_id with
  | none => (s, [])
  | some conns =>
    let ok := conns.filter (fun ws => sendOk ws = true)
    let failed := conns.filter (fun ws => ¬ sendOk ws = true)
    ((failed.sort (· ≤ ·)).foldl disconnect s,
     (ok.sort (· ≤ ·)).map (fun ws => (ws, m)))

/-- Every channel of every user entry, in registry iteration order: the
nested loop of `broadcast_to_all` visits exactly these. -/
def allChannels (s : ConnState) : List Nat :=
  s.active_connections.entries.foldr (fun e acc => e.2.sort (· ≤ ·) ++ acc) []

/-- Embeds `ConnectionManager.broadcast_to_all`: send to every channel of
every user entry, collecting failures across all sets and disconnecting
the failed channels after the loops. -/
def broadcast_to_all (sendOk : Nat → Bool) (s : ConnState) (m : OutMsg) :
    ConnState × List (Nat × OutMsg) :=
  let ok := (allChannels s).filter (fun ws => sendOk ws)
  let failed := (allChannels s).filter (fun ws => ! sendOk ws)
  (failed.foldl disconnect s, ok.map (fun ws => (ws, m)))

/-- The `ticket_update` message `send_ticket_update` builds: type
discriminator, ticket id, payload, and the payload's `timestamp` entry. -/
def ticketUpdateMsg (ticket_id : Nat) (update_data : List (String × String)) : OutMsg :=
  ⟨"ticket_update", none, none, some ticket_id, update_data,
   update_data.lookup "timestamp"⟩

/-- Embeds `ConnectionManager.send_ticket_update`: build the
`ticket_update` message; `if user_id:` (Python truthiness, default `None`)
send to that user, else broadcast to all users. -/
def send_ticket_update (sendOk : Nat → Bool) (s : ConnState) (ticket_id : Nat)
    (update_data : List (String × String)) (user_id : Option Nat) :
    ConnState × List (Nat × OutMsg) :=
  let m := ticketUpdateMsg ticket_id update_data
  if truthyNat user_id then send_message_to_user sendOk s m (user_id.getD 0)
  else broadcast_to_all sendOk s m

/-- Embeds `ConnectionManager.handle_client_message`: `ping` is answered
with `pong` echoing the caller's `timestamp` field on that channel only;
`subscribe_ticket` is acknowledged with `subscription_confirmed` carrying
the ticket id, but only under `if ticket_id and user_id:` (both truthy,
the user id read from the reverse map); any other type is logged and
ignored. -/
def handle_client_message (sendOk : Nat → Bool) (s : ConnState) (ws : Nat)
    (msg : ClientMsg) : ConnState × List (Nat × OutMsg) :=
  if msg.type = some "ping" then
    send_personal_message sendOk s ⟨"pong", none, none, none, [], msg.timestamp⟩ ws
  else if msg.type = some "subscribe_ticket" then
    let ticket_id := msg.ticket_id
    let user_id := s.websocket_users.lookup ws
    if truthyNat ticket_id && truthyNat user_id then
      send_personal_message sendOk s
        ⟨"subscription_confirmed", none, none, ticket_id, [], none⟩ ws
    else (s, [])
  else (s, [])

/-- Embeds `ConnectionManager.get_connection_count`: the sum of the sizes
of all per-user sets. -/
def get_connection_count (s : ConnState) : Nat :=
  (s.active_connections.entries.map (fun e => e.2.card)).sum

/-- The empty registry, the state of the module-level
`manager = ConnectionManager()` instance at startup. -/
def initConnState : ConnState := ⟨∅, ∅⟩

/-- Mutual consistency of the two registry maps: a websocket maps to a user
exactly when it is in that user's set. -/
def ChanConsistent (s : ConnState) : Prop :=
  ∀ ws user_id, s.websocket_users.lookup ws = some user_id ↔
    ws ∈ (s.active_connections.lookup user_id).getD ∅

/-- No user entry holds an empty set (disconnect deletes emptied entries,
connect inserts nonempty sets). -/
def NoEmptyEntry (s : ConnState) : Prop :=
  ∀ user_id conns, s.active_connections.lookup user_id = some conns → conns ≠ ∅

/-- Registry states reachable from the empty registry by the manager's
operations, where `connect` is only invoked on a channel handle not
currently registered (each accepted `WebSocket` is a fresh object). -/
inductive Reachable : ConnState → Prop where
  | init : Reachable initConnState
  | connect_step (sendOk : Nat → Bool) (s : ConnState) (ws user_id : Nat) :
      Reachable s → s.websocket_users.lookup ws = none →
      Reachable (connect sendOk s ws user_id).1
  | disconnect_step (s : ConnState) (ws : Nat) :
      Reachable s → Reachable (disconnect s ws)
  | personal_step (sendOk : Nat → Bool) (s : ConnState) (m : OutMsg) (ws : Nat) :
      Reachable s → Reachable (send_personal_message sendOk s m ws).1
  | send_user_step (sendOk : Nat → Bool) (s : ConnState) (m : OutMsg) (user_id : Nat) :
      Reachable s → Reachable (send_message_to_user sendOk s m user_id).1
  | broadcast_step (sendOk : Nat → Bool) (s : ConnState) (m : OutMsg) :
      Reachable s → Reachable (broadcast_to_all sendOk s m).1
  | ticket_update_step (sendOk : Nat → Bool) (s : ConnState) (ticket_id : Nat)
      (update_data : List (String × String)) (user_id : Option Nat) :
      Reachable s → Reachable (send_ticket_update sendOk s ticket_id update_data user_id).1
  | client_msg_step (sendOk : Nat → Bool) (s : ConnState) (ws : Nat) (msg : ClientMsg) :
      Reachable s → Reachable (handle_client_message sendOk s ws msg).1

/-! Concrete fixtures used to evaluate the embedded operations. -/

/-- Transport oracle on which every send succeeds. -/
def allOk : Nat → Bool := fun _ => true

/-- Handler oracle that succeeds with a small result payload. -/
def okHandler : Ticket → Except String HandlerOut :=
  fun _ => .ok ⟨[("analysis", "ok")], 7⟩

/-- Handler oracle that fails, standing for any dispatch, validation,
capability or unexpected error raised inside the dispatch block. -/
def errHandler : Ticket → Except String HandlerOut :=
  fun _ => .error "GitHub API error"

/-- A ticket currently in PROCESSING. -/
def tProcessing : Ticket := ⟨1, "pr_review", .processing, [], none, none, 0, none, 0⟩

/-- One-ticket database whose ticket is PROCESSING. -/
def dbProcessing : DB := ⟨[tProcessing], [], []⟩

/-- A COMPLETED ticket with a result payload and a completion time. -/
def tCompleted : Ticket :=
  ⟨1, "doc_analysis", .completed, [("analysis", "ok")], none, some 5, 0, some "gpt-4", 7⟩

/-- One-ticket database whose ticket is COMPLETED. -/
def dbCompleted : DB := ⟨[tCompleted], [], []⟩

/-- A newly created PENDING ticket. -/
def tPending : Ticket := ⟨1, "custom", .pending, [], none, none, 0, none, 0⟩

/-- One-ticket database whose ticket is PENDING. -/
def dbPending : DB := ⟨[tPending], [], []⟩

/-- A FAILED ticket carrying an error message. -/
def tFailed : Ticket := ⟨1, "custom", .failed, [], some "old error", none, 0, none, 0⟩

/-- One-ticket database whose ticket is FAILED. -/
def dbFailed : DB := ⟨[tFailed], [], []⟩

/-- Registry with channel 1 registered to identity 7. -/
def sOne : ConnState := (connect allOk initConnState 1 7).1

/-- Registry with channels 1 and 2 both registered to identity 7. -/
def sTwo : ConnState := (connect allOk sOne 2 7).1

/-- Registry obtained by connecting the same channel handle under two
different identities, the sequence refuting unconditional consistency. -/
def sClash : ConnState := (connect allOk (connect allOk initConnState 1 1).1 1 2).1

/-- Transport oracle on which channel 2 fails and every other send succeeds. -/
def failTwo : Nat → Bool := fun ws => ws != 2

/-- A minimal broadcast payload, as in the spec test scenario. -/
def msgX : OutMsg := ⟨"x", none, none, none, [], none⟩

/-- Registry with identity 7 owning channels 1 and 2 and identity 8 owning
channel 3. -/
def sMulti : ConnState := (connect allOk sTwo 3 8).1

/-! Helper lemmas about the ticket store. -/

/-- A ticket found by `getTicket` has the looked-up id. -/
theorem getTicket_id {db : DB} {tid : Nat} {t : Ticket}
    (h : getTicket db tid = some t) : t.id = tid := by
  simpa using List.find?_some h

/-- Replacing the row with a given id and then looking that id up yields the
replacement, provided the id was present. -/
theorem find?_map_put (l : List Ticket) (t t0 : Ticket)
    (h : l.find? (fun x => x.id == t.id) = some t0) :
    (l.map (fun x => if x.id == t.id then t else x)).find? (fun x => x.id == t.id) = some t := by
  induction l with
  | nil => simp at h
  | cons a l ih =>
    by_cases hb : a.id = t.id
    · simp [hb]
    · have hb' : (a.id == t.id) = false := by simp [hb]
      rw [List.find?_cons_of_neg _ (by simp [hb])] at h
      simpa [hb, hb'] using ih h

/-- `putTicket` then `getTicket` at the same id returns the written row. -/
theorem getTicket_putTicket {db : DB} {tid : Nat} {t0 t : Ticket}
    (h : getTicket db tid = some t0) (ht : t.id = tid) :
    getTicket (putTicket db t) tid = some t := by
  subst ht
  exact find?_map_put db.tickets t t0 h

/-- `log_audit_event` does not touch the ticket table. -/
theorem getTicket_log_audit_event (db : DB) (action entity_type : String)
    (entity_id : Nat) (description : String) (metadata : List (String × String))
    (clock tid : Nat) :
    getTicket (log_audit_event db action entity_type entity_id description metadata clock) tid =
      getTicket db tid := rfl

/-- Unfolding of `reprocess_ticket` on an existing ticket: the row is reset
to PENDING with error and result cleared, committed, and the id enqueued. -/
theorem reprocess_ticket_spec {clock : Nat} {db : DB} {tid : Nat} {t : Ticket}
    (h : getTicket db tid = some t) :
    reprocess_ticket clock db tid =
      .ok { (putTicket db { t with status := .pending, error_message := none, result_data := [], updated_at := clock }) with queue := db.queue ++ [tid] } := by
  unfold reprocess_ticket
  rw [h]
  rfl

/-- The ticket visible after a reprocess: the reset row. -/
theorem reprocess_ticket_getTicket {clock : Nat} {db : DB} {tid : Nat} {t db' : _}
    (h : getTicket db tid = some t) (h2 : reprocess_ticket clock db tid = .ok db') :
    getTicket db' tid = some { t with status := .pending, error_message := none, result_data := [], updated_at := clock } := by
  rw [reprocess_ticket_spec h] at h2
  cases h2
  have ht0 := getTicket_id h
  have ht : ({ t with status := TicketStatus.pending, error_message := none, result_data := [], updated_at := clock } : Ticket).id = tid := ht0
  exact getTicket_putTicket h ht

/-- Full unfolding of a successful executor run. -/
theorem process_ticket_async_ok_spec {mn j : String}
    {handler : Ticket → Except String HandlerOut} {clock : Nat} {db : DB}
    {tid : Nat} {t : Ticket} {out : HandlerOut}
    (h : getTicket db tid = some t)
    (hf : handler { t with status := TicketStatus.processing } = .ok out) :
    process_ticket_async mn j handler clock db tid =
      ⟨log_audit_event (putTicket (log_audit_event (putTicket db { t with status := .processing }) "ai_processing_started" "ticket" tid ("AI processing started for " ++ t.task_type ++ " task") [("celery_task_id", j)] clock) { t with result_data := out.result, status := .completed, completed_at := some clock, ai_model_used := some mn, tokens_used := out.tokens_used }) "ai_processing_completed" "ticket" tid "AI processing completed successfully" [("tokens_used", toString out.tokens_used)] clock, [], .ok out.result⟩ := by
  unfold process_ticket_async
  rw [h]
  dsimp only
  rw [hf]

/-- Full unfolding of a failed executor run. -/
theorem process_ticket_async_err_spec {mn j : String}
    {handler : Ticket → Except String HandlerOut} {clock : Nat} {db : DB}
    {tid : Nat} {t : Ticket} {e : String}
    (h : getTicket db tid = some t)
    (hf : handler { t with status := TicketStatus.processing } = .error e) :
    process_ticket_async mn j handler clock db tid =
      ⟨log_audit_event (putTicket (log_audit_event (putTicket db { t with status := .processing }) "ai_processing_started" "ticket" tid ("AI processing started for " ++ t.task_type ++ " task") [("celery_task_id", j)] clock) { t with status := .failed, error_message := some e }) "ai_processing_failed" "ticket" tid ("AI processing failed: " ++ e) [("error", e)] clock, [], .error e⟩ := by
  unfold process_ticket_async
  rw [h]
  dsimp only
  rw [hf]

/-- The ticket visible after a successful run. -/
theorem process_ticket_async_ok_getTicket {mn j : String}
    {handler : Ticket → Except String HandlerOut} {clock : Nat} {db : DB}
    {tid : Nat} {t : Ticket} {out : HandlerOut}
    (h : getTicket db tid = some t)
    (hf : handler { t with status := TicketStatus.processing } = .ok out) :
    getTicket (process_ticket_async mn j handler clock db tid).db tid =
      some { t with result_data := out.result, status := .completed, completed_at := some clock, ai_model_used := some mn, tokens_used := out.tokens_used } := by
  rw [process_ticket_async_ok_spec h hf]
  have h1 : getTicket (putTicket db { t with status := TicketStatus.processing }) tid = some ({ t with status := TicketStatus.processing } : Ticket) := by
    have hid0 := getTicket_id h
    have hid : ({ t with status := TicketStatus.processing } : Ticket).id = tid := hid0
    exact getTicket_putTicket h hid
  have hid1 := getTicket_id h
  have hid2 : ({ t with result_data := out.result, status := TicketStatus.completed, completed_at := some clock, ai_model_used := some mn, tokens_used := out.tokens_used } : Ticket).id = tid := hid1
  exact getTicket_putTicket h1 hid2

/-- The ticket visible after a failed run. -/
theorem process_ticket_async_err_getTicket {mn j : String}
    {handler : Ticket → Except String HandlerOut} {clock : Nat} {db : DB}
    {tid : Nat} {t : Ticket} {e : String}
    (h : getTicket db tid = some t)
    (hf : handler { t with status := TicketStatus.processing } = .error e) :
    getTicket (process_ticket_async mn j handler clock db tid).db tid =
      some { t with status := .failed, error_message := some e } := by
  rw [process_ticket_async_err_spec h hf]
  have h1 : getTicket (putTicket db { t with status := TicketStatus.processing }) tid = some ({ t with status := TicketStatus.processing } : Ticket) := by
    have hid0 := getTicket_id h
    have hid : ({ t with status := TicketStatus.processing } : Ticket).id = tid := hid0
    exact getTicket_putTicket h hid
  have hid1 := getTicket_id h
  have hid2 : ({ t with status := TicketStatus.failed, error_message := some e } : Ticket).id = tid := hid1
  exact getTicket_putTicket h1 hid2

/-- The row rewritten by the status-update task keeps its id. -/
theorem updatedTicket_id (clock : Nat) (t : Ticket) (st : TicketStatus)
    (status : String) (rd : Option (List (String × String))) :
    (updatedTicket clock t st status rd).id = t.id := by
  unfold updatedTicket
  rcases rd with _ | rd <;> dsimp only
  · split <;> rfl
  · split <;> (try split) <;> rfl

/-- The status-update task sets `completed_at` exactly when the status
string is "completed", and otherwise keeps the prior value. -/
theorem updatedTicket_completed_at (clock : Nat) (t : Ticket) (st : TicketStatus)
    (status : String) (rd : Option (List (String × String))) :
    (updatedTicket clock t st status rd).completed_at =
      (if status = "completed" then some clock else t.completed_at) := by
  unfold updatedTicket
  rcases rd with _ | rd <;> dsimp only
  · split <;> simp_all
  · split <;> (try split) <;> simp_all

/-! Claim C1. -/

/-- C1 counterexample: reprocessing a ticket whose status is PROCESSING does
not raise an `InvalidStateError` and does not leave the record unchanged:
the endpoint succeeds, resets the row to PENDING with cleared error and
result, and enqueues a second job for a ticket that already has one in
flight.  The source body of `reprocess_ticket` contains no status check. -/
theorem reprocess_processing_no_guard :
    reprocess_ticket 9 dbProcessing 1 =
      .ok ⟨[⟨1, "pr_review", .pending, [], none, none, 9, none, 0⟩], [], [1]⟩ := by
  rfl

/-- C1 amended: `reprocess_ticket` performs no status check at all.  For
every existing ticket, in any status (PENDING and PROCESSING included), it
clears the error text and the result payload, resets the status to PENDING,
stamps `updated_at`, commits, and enqueues a new job for the same ticket
id; it never raises an `InvalidStateError`. -/
theorem reprocess_resets_any_status (clock : Nat) (db : DB) (tid : Nat) (t : Ticket)
    (h : getTicket db tid = some t) :
    reprocess_ticket clock db tid = .ok { (putTicket db { t with status := .pending, error_message := none, result_data := [], updated_at := clock }) with queue := db.queue ++ [tid] } ∧
    (∀ db', reprocess_ticket clock db tid = .ok db' →
      getTicket db' tid = some { t with status := .pending, error_message := none, result_data := [], updated_at := clock } ∧
      db'.queue = db.queue ++ [tid]) := by
  refine ⟨reprocess_ticket_spec h, fun db' h2 => ⟨reprocess_ticket_getTicket h h2, ?_⟩⟩
  rw [reprocess_ticket_spec h] at h2
  cases h2
  rfl

/-- C1 witness: the amended theorem evaluated on a FAILED ticket. -/
theorem reprocess_resets_any_status_witness :
    reprocess_ticket 9 dbFailed 1 = .ok { (putTicket dbFailed { tFailed with status := .pending, error_message := none, result_data := [], updated_at := 9 }) with queue := dbFailed.queue ++ [1] } :=
  (reprocess_resets_any_status 9 dbFailed 1 tFailed rfl).1

/-! Claim C2. -/

/-- C2 counterexample: delivering a job for a ticket that is already in
PROCESSING is not rejected: `process_ticket_async` raises no
`InvalidStateError`, runs the handler a second time, and rewrites the
record to COMPLETED.  The source sets `ticket.status = PROCESSING`
unconditionally, with no transition guard. -/
theorem runJob_processing_not_rejected :
    (process_ticket_async "gpt-4" "job-1" okHandler 9 dbProcessing 1).outcome =
      .ok [("analysis", "ok")] ∧
    getTicket (process_ticket_async "gpt-4" "job-1" okHandler 9 dbProcessing 1).db 1 =
      some ⟨1, "pr_review", .completed, [("analysis", "ok")], none, some 9, 0, some "gpt-4", 7⟩ := by
  exact ⟨rfl, rfl⟩

/-- C2 amended: the executor implements no lifecycle transition guard.  For
every ticket present in the store, whatever its current status, `runJob`
overwrites the status with PROCESSING, appends the processing-started audit
row, invokes the handler, and finishes in COMPLETED or FAILED; its outcome
is exactly the handler's outcome, never an `InvalidStateError`
rejection. -/
theorem runJob_no_transition_guard (mn j : String)
    (handler : Ticket → Except String HandlerOut) (clock : Nat) (db : DB)
    (tid : Nat) (t : Ticket) (h : getTicket db tid = some t) :
    (process_ticket_async mn j handler clock db tid).outcome =
      Except.map (fun o => o.result) (handler { t with status := .processing }) ∧
    (∀ t', getTicket (process_ticket_async mn j handler clock db tid).db tid = some t' →
      t'.status = .completed ∨ t'.status = .failed) ∧
    (process_ticket_async mn j handler clock db tid).db.audit_logs.length =
      db.audit_logs.length + 2 := by
  cases hf : handler { t with status := TicketStatus.processing } with
  | ok out =>
    refine ⟨?_, ?_, ?_⟩
    · rw [process_ticket_async_ok_spec h hf]
      rfl
    · intro t' ht'
      rw [process_ticket_async_ok_getTicket h hf] at ht'
      cases ht'
      exact Or.inl rfl
    · rw [process_ticket_async_ok_spec h hf]
      simp [log_audit_event, putTicket]
  | error e =>
    refine ⟨?_, ?_, ?_⟩
    · rw [process_ticket_async_err_spec h hf]
      rfl
    · intro t' ht'
      rw [process_ticket_async_err_getTicket h hf] at ht'
      cases ht'
      exact Or.inr rfl
    · rw [process_ticket_async_err_spec h hf]
      simp [log_audit_event, putTicket]

/-- C2 witness: the amended theorem evaluated on a PENDING ticket with a
succeeding handler. -/
theorem runJob_no_transition_guard_witness :
    (process_ticket_async "gpt-4" "job-1" okHandler 9 dbPending 1).outcome =
      Except.map (fun o => o.result) (okHandler { tPending with status := .processing }) :=
  (runJob_no_transition_guard "gpt-4" "job-1" okHandler 9 dbPending 1 tPending rfl).1

/-! Claim C3. -/

/-- C3: when the handler fails with any error, the executor marks the
ticket FAILED, stores the failure's message in the error text, appends an
`ai_processing_failed` audit row (the spec's `processing_failed` entry)
carrying the error in its metadata, and re-raises the error, which the
Celery task entry point also re-raises to the job queue. -/
theorem executor_failure_marks_audits_reraises (mn j : String)
    (handler : Ticket → Except String HandlerOut) (clock : Nat) (db : DB)
    (tid : Nat) (t : Ticket) (e : String)
    (h : getTicket db tid = some t)
    (hf : handler { t with status := TicketStatus.processing } = .error e) :
    getTicket (process_ticket_async mn j handler clock db tid).db tid =
      some { t with status := .failed, error_message := some e } ∧
    (process_ticket_async mn j handler clock db tid).db.audit_logs.getLast? =
      some ⟨"ai_processing_failed", "ticket", tid, "AI processing failed: " ++ e, [("error", e)], clock⟩ ∧
    (process_ticket_async mn j handler clock db tid).outcome = .error e ∧
    (process_ticket_task mn j handler clock db tid).2 = .error e := by
  refine ⟨process_ticket_async_err_getTicket h hf, ?_, ?_, ?_⟩
  · rw [process_ticket_async_err_spec h hf]
    simp [log_audit_event, putTicket]
  · rw [process_ticket_async_err_spec h hf]
  · unfold process_ticket_task
    rw [process_ticket_async_err_spec h hf]

/-- C3 witness: the theorem evaluated on a PENDING ticket with a failing
handler. -/
theorem executor_failure_witness :
    (process_ticket_async "gpt-4" "job-1" errHandler 9 dbPending 1).outcome =
      .error "GitHub API error" :=
  (executor_failure_marks_audits_reraises "gpt-4" "job-1" errHandler 9 dbPending 1
    tPending "GitHub API error" rfl rfl).2.2.1

/-! Claim C4. -/

/-- C4 counterexample: reprocessing a COMPLETED ticket resets its status to
PENDING but leaves the completed timestamp in place — the source clears
`status`, `error_message` and `result_data` but never `completed_at` — so
the reset ticket still carries completion time 5 while PENDING, violating
the claimed iff. -/
theorem reprocess_retains_completed_at :
    (reprocess_ticket 9 dbCompleted 1).toOption.bind (fun db => getTicket db 1) =
      some ⟨1, "doc_analysis", .pending, [], none, some 5, 9, some "gpt-4", 7⟩ := by
  rfl

/-- C4 amended: the job executor establishes the iff only for tickets with
no prior completion time (it stamps `completed_at` exactly on the COMPLETED
transition and never clears it on FAILED), `reprocess_ticket` leaves any
prior `completed_at` untouched when resetting to PENDING, and the
status-update task sets `completed_at` only when the new status string is
"completed", likewise never clearing a stale value. -/
theorem completed_at_discipline :
    (∀ (mn j : String) (handler : Ticket → Except String HandlerOut) (clock : Nat)
      (db : DB) (tid : Nat) (t t' : Ticket),
      getTicket db tid = some t → t.completed_at = none →
      getTicket (process_ticket_async mn j handler clock db tid).db tid = some t' →
      (t'.completed_at.isSome ↔ t'.status = .completed)) ∧
    (∀ (clock : Nat) (db db' : DB) (tid : Nat) (t t' : Ticket),
      getTicket db tid = some t → reprocess_ticket clock db tid = .ok db' →
      getTicket db' tid = some t' → t'.completed_at = t.completed_at) ∧
    (∀ (clock : Nat) (db db' : DB) (tid : Nat) (st : String)
      (rd : Option (List (String × String))) (t t' : Ticket),
      getTicket db tid = some t → update_ticket_status_async clock db tid st rd = .ok db' →
      getTicket db' tid = some t' →
      t'.completed_at = (if st = "completed" then some clock else t.completed_at)) := by
  refine ⟨?_, ?_, ?_⟩
  · intro mn j handler clock db tid t t' h hc ht'
    cases hf : handler { t with status := TicketStatus.processing } with
    | ok out =>
      rw [process_ticket_async_ok_getTicket h hf] at ht'
      cases ht'
      simp
    | error e =>
      rw [process_ticket_async_err_getTicket h hf] at ht'
      cases ht'
      simp [hc]
  · intro clock db db' tid t t' h h2 ht'
    rw [reprocess_ticket_getTicket h h2] at ht'
    cases ht'
    rfl
  · intro clock db db' tid st rd t t' h h2 ht'
    unfold update_ticket_status_async at h2
    rw [h] at h2
    cases hfs : TicketStatus.fromString st with
    | none =>
      rw [hfs] at h2
      exact absurd h2 (by simp)
    | some stv =>
      rw [hfs] at h2
      cases h2
      have hid3 : (updatedTicket clock t stv st rd).id = tid := by
        rw [updatedTicket_id]
        exact getTicket_id h
      rw [getTicket_putTicket h hid3] at ht'
      cases ht'
      exact updatedTicket_completed_at clock t stv st rd

/-- C4 witness: the conjuncts evaluated on concrete runs — a failing job on
a never-completed PENDING ticket leaves `completed_at` unset. -/
theorem completed_at_discipline_witness :
    ((process_ticket_async "gpt-4" "job-1" errHandler 9 dbPending 1).db.tickets.head?.map Ticket.completed_at).getD none = none ∧
    (∀ t', getTicket (process_ticket_async "gpt-4" "job-1" errHandler 9 dbPending 1).db 1 = some t' → (t'.completed_at.isSome ↔ t'.status = .completed)) :=
  ⟨rfl, fun t' ht' =>
    completed_at_discipline.1 "gpt-4" "job-1" errHandler 9 dbPending 1 tPending t' rfl rfl ht'⟩

/-! Helper lemmas about the Connection Multiplexer registry. -/

/-- Disconnecting an unregistered channel is the identity on the state. -/
theorem disconnect_of_not_registered {s : ConnState} {ws : Nat}
    (h : s.websocket_users.lookup ws = none) : disconnect s ws = s := by
  unfold disconnect
  rw [h]

/-- After a disconnect the channel is no longer in the reverse map. -/
theorem disconnect_lookup_self (s : ConnState) (ws : Nat) :
    (disconnect s ws).websocket_users.lookup ws = none := by
  unfold disconnect
  cases h : s.websocket_users.lookup ws with
  | none => exact h
  | some u => exact AList.lookup_erase ws s.websocket_users

/-- A disconnect leaves the reverse-map entry of every other channel
unchanged. -/
theorem disconnect_lookup_other {ws ws' : Nat} (s : ConnState) (hne : ws' ≠ ws) :
    (disconnect s ws).websocket_users.lookup ws' = s.websocket_users.lookup ws' := by
  unfold disconnect
  cases h : s.websocket_users.lookup ws with
  | none => rfl
  | some u => exact AList.lookup_erase_ne hne

/-- A disconnect never re-registers a channel. -/
theorem disconnect_lookup_none_mono {s : ConnState} {ws' : Nat} (ws : Nat)
    (h : s.websocket_users.lookup ws' = none) :
    (disconnect s ws).websocket_users.lookup ws' = none := by
  by_cases hne : ws' = ws
  · subst hne
    exact disconnect_lookup_self s ws'
  · rw [disconnect_lookup_other s hne]
    exact h

/-- Folding disconnects over a list of channels leaves every channel not in
the list untouched in the reverse map. -/
theorem foldl_disconnect_lookup_not_mem :
    ∀ (l : List Nat) (s : ConnState) (ws : Nat), ws ∉ l →
      (l.foldl disconnect s).websocket_users.lookup ws = s.websocket_users.lookup ws := by
  intro l
  induction l with
  | nil => intro s ws _; rfl
  | cons a l ih =>
    intro s ws hmem
    have h1 : ws ≠ a := fun hc => hmem (hc ▸ List.mem_cons_self a l)
    have h2 : ws ∉ l := fun hc => hmem (List.mem_cons_of_mem a hc)
    rw [List.foldl_cons, ih (disconnect s a) ws h2, disconnect_lookup_other s h1]

/-- Folding disconnects never re-registers a channel. -/
theorem foldl_disconnect_lookup_none :
    ∀ (l : List Nat) (s : ConnState) (ws : Nat),
      s.websocket_users.lookup ws = none →
      (l.foldl disconnect s).websocket_users.lookup ws = none := by
  intro l
  induction l with
  | nil => intro s ws h; exact h
  | cons a l ih =>
    intro s ws h
    exact ih (disconnect s a) ws (disconnect_lookup_none_mono a h)

/-- Every channel in the disconnect list ends up unregistered. -/
theorem foldl_disconnect_lookup_mem :
    ∀ (l : List Nat) (s : ConnState) (ws : Nat), ws ∈ l →
      (l.foldl disconnect s).websocket_users.lookup ws = none := by
  intro l
  induction l with
  | nil => intro s ws h; cases h
  | cons a l ih =>
    intro s ws h
    rcases List.mem_cons.mp h with h | h
    · subst h
      by_cases hl : ws ∈ l
      · exact ih (disconnect s ws) ws hl
      · rw [List.foldl_cons, foldl_disconnect_lookup_not_mem l (disconnect s ws) ws hl]
        exact disconnect_lookup_self s ws
    · exact ih (disconnect s a) ws h

/-- The state component of `send_message_to_user` when the user has an
entry: the fold of disconnects over the failing channels. -/
theorem send_message_to_user_state {sendOk : Nat → Bool} {s : ConnState}
    {m : OutMsg} {u : Nat} {conns : Finset Nat}
    (h : s.active_connections.lookup u = some conns) :
    (send_message_to_user sendOk s m u).1 =
      ((conns.filter (fun ws => ¬ sendOk ws = true)).sort (· ≤ ·)).foldl disconnect s := by
  unfold send_message_to_user
  rw [h]

/-- The delivery log of `send_message_to_user` when the user has an entry. -/
theorem send_message_to_user_log {sendOk : Nat → Bool} {s : ConnState}
    {m : OutMsg} {u : Nat} {conns : Finset Nat}
    (h : s.active_connections.lookup u = some conns) :
    (send_message_to_user sendOk s m u).2 =
      ((conns.filter (fun ws => sendOk ws = true)).sort (· ≤ ·)).map (fun ws => (ws, m)) := by
  unfold send_message_to_user
  rw [h]

/-- A user with no registry entry receives nothing and changes nothing. -/
theorem send_message_to_user_none {sendOk : Nat → Bool} {s : ConnState}
    {m : OutMsg} {u : Nat} (h : s.active_connections.lookup u = none) :
    send_message_to_user sendOk s m u = (s, []) := by
  unfold send_message_to_user
  rw [h]

/-- Every channel of the target user whose send succeeds receives the
message, regardless of failures on sibling channels. -/
theorem send_message_to_user_delivers {sendOk : Nat → Bool} {s : ConnState}
    {m : OutMsg} {u ws : Nat} {conns : Finset Nat}
    (h : s.active_connections.lookup u = some conns)
    (hws : ws ∈ conns) (hok : sendOk ws = true) :
    (ws, m) ∈ (send_message_to_user sendOk s m u).2 := by
  rw [send_message_to_user_log h]
  refine List.mem_map_of_mem (fun ws => (ws, m)) ?_
  rw [Finset.mem_sort]
  exact Finset.mem_filter.mpr ⟨hws, hok⟩

/-- A channel whose send succeeds keeps its registration. -/
theorem send_message_to_user_preserves {sendOk : Nat → Bool} {s : ConnState}
    {m : OutMsg} {u ws : Nat} {conns : Finset Nat}
    (h : s.active_connections.lookup u = some conns) (hok : sendOk ws = true) :
    (send_message_to_user sendOk s m u).1.websocket_users.lookup ws =
      s.websocket_users.lookup ws := by
  rw [send_message_to_user_state h]
  refine foldl_disconnect_lookup_not_mem _ s ws ?_
  intro hc
  rw [Finset.mem_sort] at hc
  exact (Finset.mem_filter.mp hc).2 hok

/-- A channel of the target user whose send fails is disconnected. -/
theorem send_message_to_user_disconnects {sendOk : Nat → Bool} {s : ConnState}
    {m : OutMsg} {u ws : Nat} {conns : Finset Nat}
    (h : s.active_connections.lookup u = some conns)
    (hws : ws ∈ conns) (hfail : sendOk ws = false) :
    (send_message_to_user sendOk s m u).1.websocket_users.lookup ws = none := by
  rw [send_message_to_user_state h]
  refine foldl_disconnect_lookup_mem _ s ws ?_
  rw [Finset.mem_sort]
  refine Finset.mem_filter.mpr ⟨hws, ?_⟩
  simp [hfail]

/-- A channel outside the target user's set keeps its registration. -/
theorem send_message_to_user_other {sendOk : Nat → Bool} {s : ConnState}
    {m : OutMsg} {u ws : Nat}
    (h : ws ∉ (s.active_connections.lookup u).getD ∅) :
    (send_message_to_user sendOk s m u).1.websocket_users.lookup ws =
      s.websocket_users.lookup ws := by
  cases hu : s.active_connections.lookup u with
  | none => rw [send_message_to_user_none hu]
  | some conns =>
    rw [send_message_to_user_state hu]
    refine foldl_disconnect_lookup_not_mem _ s ws ?_
    intro hc
    rw [Finset.mem_sort] at hc
    rw [hu] at h
    exact h (Finset.mem_filter.mp hc).1

/-! Claim C6. -/

/-- C6: `disconnect` is idempotent on the registry: disconnecting a channel
absent from the reverse map changes nothing and raises no error,
disconnecting twice equals disconnecting once (so the connection count is
never double-decremented), and when the removed channel was the last one of
its identity the identity's entry is removed from the
identity-to-channels map entirely. -/
theorem disconnect_idempotent :
    (∀ (s : ConnState) (ws : Nat), s.websocket_users.lookup ws = none →
      disconnect s ws = s) ∧
    (∀ (s : ConnState) (ws : Nat), disconnect (disconnect s ws) ws = disconnect s ws) ∧
    (∀ (s : ConnState) (ws : Nat),
      get_connection_count (disconnect (disconnect s ws) ws) =
        get_connection_count (disconnect s ws)) ∧
    (∀ (s : ConnState) (ws u : Nat) (conns : Finset Nat),
      s.websocket_users.lookup ws = some u →
      s.active_connections.lookup u = some conns → conns.erase ws = ∅ →
      (disconnect s ws).active_connections.lookup u = none) := by
  have hidem : ∀ (s : ConnState) (ws : Nat), disconnect (disconnect s ws) ws = disconnect s ws :=
    fun s ws => disconnect_of_not_registered (disconnect_lookup_self s ws)
  refine ⟨fun s ws h => disconnect_of_not_registered h, hidem,
    fun s ws => by rw [hidem s ws], ?_⟩
  intro s ws u conns hw hu hE
  unfold disconnect
  rw [hw]
  dsimp only
  rw [hu]
  dsimp only
  rw [if_pos hE]
  exact AList.lookup_erase u s.active_connections

/-- C6 witness: the conjuncts evaluated on concrete registries. -/
theorem disconnect_idempotent_witness :
    disconnect initConnState 5 = initConnState ∧
    disconnect (disconnect sTwo 1) 1 = disconnect sTwo 1 ∧
    get_connection_count (disconnect (disconnect sTwo 1) 1) =
      get_connection_count (disconnect sTwo 1) ∧
    (disconnect sOne 1).active_connections.lookup 7 = none :=
  ⟨disconnect_idempotent.1 initConnState 5 rfl,
   disconnect_idempotent.2.1 sTwo 1,
   disconnect_idempotent.2.2.1 sTwo 1,
   disconnect_idempotent.2.2.2 sOne 1 7 {1} rfl rfl (by decide)⟩

/-! Claim C7. -/

/-- C7: `send_message_to_user` delivers the message to every live channel
of the target identity (a channel receives it whenever its own send
succeeds, regardless of failures on sibling channels), a failing channel is
disconnected while every succeeding channel and every channel of every
other identity keeps its registration, no failure escapes the operation,
and an identity with no registry entry yields no delivery and no state
change. -/
theorem sendToIdentity_isolation :
    (∀ (sendOk : Nat → Bool) (s : ConnState) (m : OutMsg) (u : Nat),
      s.active_connections.lookup u = none →
      send_message_to_user sendOk s m u = (s, [])) ∧
    (∀ (sendOk : Nat → Bool) (s : ConnState) (m : OutMsg) (u ws : Nat) (conns : Finset Nat),
      s.active_connections.lookup u = some conns → ws ∈ conns → sendOk ws = true →
      (ws, m) ∈ (send_message_to_user sendOk s m u).2 ∧
      (send_message_to_user sendOk s m u).1.websocket_users.lookup ws =
        s.websocket_users.lookup ws) ∧
    (∀ (sendOk : Nat → Bool) (s : ConnState) (m : OutMsg) (u ws : Nat) (conns : Finset Nat),
      s.active_connections.lookup u = some conns → ws ∈ conns → sendOk ws = false →
      (send_message_to_user sendOk s m u).1.websocket_users.lookup ws = none) ∧
    (∀ (sendOk : Nat → Bool) (s : ConnState) (m : OutMsg) (u ws : Nat),
      ws ∉ (s.active_connections.lookup u).getD ∅ →
      (send_message_to_user sendOk s m u).1.websocket_users.lookup ws =
        s.websocket_users.lookup ws) := by
  refine ⟨fun sendOk s m u h => send_message_to_user_none h,
    fun sendOk s m u ws conns h hws hok =>
      ⟨send_message_to_user_delivers h hws hok, send_message_to_user_preserves h hok⟩,
    fun sendOk s m u ws conns h hws hfail =>
      send_message_to_user_disconnects h hws hfail,
    fun sendOk s m u ws h => send_message_to_user_other h⟩

/-- C7 witness: identity 7 has channels 1 and 2 and channel 2's send fails —
channel 1 still receives the message and stays registered, channel 2 is
disconnected; identity 99 has no channels and nothing happens. -/
theorem sendToIdentity_isolation_witness :
    send_message_to_user failTwo sTwo msgX 99 = (sTwo, []) ∧
    ((1, msgX) ∈ (send_message_to_user failTwo sTwo msgX 7).2 ∧
      (send_message_to_user failTwo sTwo msgX 7).1.websocket_users.lookup 1 =
        sTwo.websocket_users.lookup 1) ∧
    (send_message_to_user failTwo sTwo msgX 7).1.websocket_users.lookup 2 = none :=
  ⟨sendToIdentity_isolation.1 failTwo sTwo msgX 99 rfl,
   sendToIdentity_isolation.2.1 failTwo sTwo msgX 7 1 {2, 1} (by decide) (by decide) rfl,
   sendToIdentity_isolation.2.2.1 failTwo sTwo msgX 7 2 {2, 1} (by decide) (by decide) rfl⟩

/-! Helper lemmas about broadcasting. -/

/-- A channel of any user entry is visited by the broadcast loop. -/
theorem mem_foldr_channels {l : List (Sigma (fun _ : Nat => Finset Nat))}
    {u ws : Nat} {conns : Finset Nat}
    (he : Sigma.mk u conns ∈ l) (hws : ws ∈ conns) :
    ws ∈ l.foldr (fun e acc => e.2.sort (· ≤ ·) ++ acc) [] := by
  induction l with
  | nil => cases he
  | cons a l ih =>
    rcases List.mem_cons.mp he with he | he
    · subst he
      exact List.mem_append_left _ (by rw [Finset.mem_sort]; exact hws)
    · exact List.mem_append_right _ (ih he)

/-- Every channel of every user entry whose send succeeds receives a
broadcast message. -/
theorem broadcast_delivers {sendOk : Nat → Bool} {s : ConnState} {m : OutMsg}
    {u ws : Nat} {conns : Finset Nat}
    (h : s.active_connections.lookup u = some conns)
    (hws : ws ∈ conns) (hok : sendOk ws = true) :
    (ws, m) ∈ (broadcast_to_all sendOk s m).2 := by
  have hmem : Sigma.mk u conns ∈ s.active_connections.entries :=
    AList.mem_lookup_iff.mp h
  unfold broadcast_to_all
  dsimp only
  refine List.mem_map_of_mem _ (List.mem_filter.mpr ⟨?_, hok⟩)
  exact mem_foldr_channels hmem hws

/-! Claim C8. -/

/-- C8 counterexample: a `subscribe_ticket` message with no `ticket_id`
field receives no acknowledgement at all — the source only answers under
`if ticket_id and user_id:` — even though the channel is registered and
every send would succeed; the claim's unconditional acknowledgement is
false. -/
theorem subscribe_without_ticket_id_ignored :
    handle_client_message allOk sOne 1 ⟨some "subscribe_ticket", none, none⟩ =
      (sOne, []) := by
  rfl

/-- C8 amended: `ping` is answered with a `pong` echoing the caller's
timestamp field on that channel only; `subscribe_ticket` is acknowledged
with `subscription_confirmed` carrying the ticket id only when the message
carries a truthy ticket id and the sender channel maps to a truthy user id,
and is silently ignored otherwise; any other or unknown type is ignored
with no reply and no state change, never an error to the client. -/
theorem client_message_protocol :
    (∀ (sendOk : Nat → Bool) (s : ConnState) (ws : Nat) (msg : ClientMsg),
      msg.type = some "ping" → sendOk ws = true →
      handle_client_message sendOk s ws msg =
        (s, [(ws, ⟨"pong", none, none, none, [], msg.timestamp⟩)])) ∧
    (∀ (sendOk : Nat → Bool) (s : ConnState) (ws : Nat) (msg : ClientMsg),
      msg.type = some "subscribe_ticket" →
      truthyNat msg.ticket_id = true →
      truthyNat (s.websocket_users.lookup ws) = true → sendOk ws = true →
      handle_client_message sendOk s ws msg =
        (s, [(ws, ⟨"subscription_confirmed", none, none, msg.ticket_id, [], none⟩)])) ∧
    (∀ (sendOk : Nat → Bool) (s : ConnState) (ws : Nat) (msg : ClientMsg),
      msg.type = some "subscribe_ticket" →
      (truthyNat msg.ticket_id && truthyNat (s.websocket_users.lookup ws)) = false →
      handle_client_message sendOk s ws msg = (s, [])) ∧
    (∀ (sendOk : Nat → Bool) (s : ConnState) (ws : Nat) (msg : ClientMsg),
      msg.type ≠ some "ping" → msg.type ≠ some "subscribe_ticket" →
      handle_client_message sendOk s ws msg = (s, [])) := by
  refine ⟨?_, ?_, ?_, ?_⟩
  · intro sendOk s ws msg hty hok
    unfold handle_client_message
    rw [if_pos hty]
    unfold send_personal_message
    rw [if_pos hok]
  · intro sendOk s ws msg hty htid huid hok
    have hne : msg.type ≠ some "ping" := by rw [hty]; decide
    unfold handle_client_message
    rw [if_neg hne, if_pos hty]
    dsimp only
    rw [htid, huid]
    simp [send_personal_message, hok]
  · intro sendOk s ws msg hty hfalse
    have hne : msg.type ≠ some "ping" := by rw [hty]; decide
    unfold handle_client_message
    rw [if_neg hne, if_pos hty]
    dsimp only
    rw [hfalse]
    rfl
  · intro sendOk s ws msg h1 h2
    unfold handle_client_message
    rw [if_neg h1, if_neg h2]

/-- C8 witness: the conjuncts evaluated on the one-channel registry — a
ping is answered with a pong echoing the timestamp, a subscribe with ticket
id 3 is confirmed, a subscribe with the falsy ticket id 0 is ignored, and
an unknown type is ignored. -/
theorem client_message_protocol_witness :
    handle_client_message allOk sOne 1 ⟨some "ping", some "123", none⟩ =
      (sOne, [(1, ⟨"pong", none, none, none, [], some "123"⟩)]) ∧
    handle_client_message allOk sOne 1 ⟨some "subscribe_ticket", none, some 3⟩ =
      (sOne, [(1, ⟨"subscription_confirmed", none, none, some 3, [], none⟩)]) ∧
    handle_client_message allOk sOne 1 ⟨some "subscribe_ticket", none, some 0⟩ =
      (sOne, []) ∧
    handle_client_message allOk sOne 1 ⟨some "unknown_kind", none, none⟩ =
      (sOne, []) :=
  ⟨client_message_protocol.1 allOk sOne 1 ⟨some "ping", some "123", none⟩ rfl rfl,
   client_message_protocol.2.1 allOk sOne 1 ⟨some "subscribe_ticket", none, some 3⟩
     rfl rfl (by decide) rfl,
   client_message_protocol.2.2.1 allOk sOne 1 ⟨some "subscribe_ticket", none, some 0⟩
     rfl (by decide),
   client_message_protocol.2.2.2 allOk sOne 1 ⟨some "unknown_kind", none, none⟩
     (by decide) (by decide)⟩

/-! Claim C10. -/

/-- C10: when `send_ticket_update` is invoked with a falsy owner identity
(`None` or `0`), it neither targets a single user nor drops the message: it
broadcasts the `ticket_update` message, carrying the ticket's id, and every
live channel of every connected identity whose send succeeds receives
it. -/
theorem ticket_update_falsy_user_broadcasts :
    ∀ (sendOk : Nat → Bool) (s : ConnState) (tid : Nat)
      (d : List (String × String)) (uid : Option Nat),
      uid = none ∨ uid = some 0 →
      send_ticket_update sendOk s tid d uid =
        broadcast_to_all sendOk s (ticketUpdateMsg tid d) ∧
      (ticketUpdateMsg tid d).type = "ticket_update" ∧
      (ticketUpdateMsg tid d).ticket_id = some tid ∧
      ∀ (u ws : Nat) (conns : Finset Nat),
        s.active_connections.lookup u = some conns → ws ∈ conns → sendOk ws = true →
        (ws, ticketUpdateMsg tid d) ∈ (send_ticket_update sendOk s tid d uid).2 := by
  intro sendOk s tid d uid huid
  have hfalsy : truthyNat uid = false := by
    rcases huid with h | h <;> subst h <;> rfl
  have heq : send_ticket_update sendOk s tid d uid =
      broadcast_to_all sendOk s (ticketUpdateMsg tid d) := by
    unfold send_ticket_update
    rw [hfalsy]
    rfl
  refine ⟨heq, rfl, rfl, ?_⟩
  intro u ws conns h hws hok
  rw [heq]
  exact broadcast_delivers h hws hok

/-- C10 witness: with owner `None` on the two-identity registry, both a
channel of identity 7 and the channel of identity 8 receive the
`ticket_update` message. -/
theorem ticket_update_falsy_user_broadcasts_witness :
    (1, ticketUpdateMsg 42 []) ∈ (send_ticket_update allOk sMulti 42 [] none).2 ∧
    (3, ticketUpdateMsg 42 []) ∈ (send_ticket_update allOk sMulti 42 [] none).2 :=
  ⟨(ticket_update_falsy_user_broadcasts allOk sMulti 42 [] none (Or.inl rfl)).2.2.2
      7 1 {2, 1} (by decide) (by decide) rfl,
   (ticket_update_falsy_user_broadcasts allOk sMulti 42 [] none (Or.inl rfl)).2.2.2
      8 3 {3} (by decide) (by decide) rfl⟩

/-! Claim C5. -/

/-- C5 counterexample: a job run that reaches the COMPLETED terminal
transition issues no Connection Multiplexer notification at all — the body
of `process_ticket_async` contains no call into the websocket manager — so
no channel of the owner receives a `ticket_update` message from the
executor. -/
theorem executor_never_notifies :
    (process_ticket_async "gpt-4" "job-1" okHandler 9 dbPending 1).notifications = [] ∧
    (process_ticket_async "gpt-4" "job-1" okHandler 9 dbPending 1).outcome =
      .ok [("analysis", "ok")] := by
  exact ⟨rfl, rfl⟩

/-- C5 amended: the executor itself notifies the multiplexer after no run,
terminal or otherwise; the notification operation exists separately
(`send_ticket_update`) and, when some caller invokes it with the owner's
(truthy) identity, it delivers a message with type `ticket_update` and the
ticket's id to every live channel of the owner whose send succeeds. -/
theorem ticket_update_owner_delivery :
    (∀ (mn j : String) (handler : Ticket → Except String HandlerOut)
      (clock : Nat) (db : DB) (tid : Nat),
      (process_ticket_async mn j handler clock db tid).notifications = []) ∧
    (∀ (sendOk : Nat → Bool) (s : ConnState) (tid : Nat)
      (d : List (String × String)) (uid : Nat), uid ≠ 0 →
      send_ticket_update sendOk s tid d (some uid) =
        send_message_to_user sendOk s (ticketUpdateMsg tid d) uid ∧
      (ticketUpdateMsg tid d).type = "ticket_update" ∧
      (ticketUpdateMsg tid d).ticket_id = some tid ∧
      ∀ (ws : Nat) (conns : Finset Nat),
        s.active_connections.lookup uid = some conns → ws ∈ conns → sendOk ws = true →
        (ws, ticketUpdateMsg tid d) ∈ (send_ticket_update sendOk s tid d (some uid)).2) := by
  constructor
  · intro mn j handler clock db tid
    unfold process_ticket_async
    cases h : getTicket db tid with
    | none => rfl
    | some t =>
      dsimp only
      cases hh : handler { t with status := TicketStatus.processing } <;> rfl
  · intro sendOk s tid d uid huid
    have htruthy : truthyNat (some uid) = true := by
      simp [truthyNat, huid]
    have heq : send_ticket_update sendOk s tid d (some uid) =
        send_message_to_user sendOk s (ticketUpdateMsg tid d) uid := by
      unfold send_ticket_update
      rw [htruthy]
      rfl
    refine ⟨heq, rfl, rfl, ?_⟩
    intro ws conns h hws hok
    rw [heq]
    exact send_message_to_user_delivers h hws hok

/-- C5 amended witness: a run on the PENDING fixture produces no
notification, and `send_ticket_update` addressed to owner 7 reaches the
owner's channel 1. -/
theorem ticket_update_owner_delivery_witness :
    (process_ticket_async "gpt-4" "job-1" errHandler 9 dbPending 1).notifications = [] ∧
    (1, ticketUpdateMsg 42 []) ∈ (send_ticket_update allOk sMulti 42 [] (some 7)).2 :=
  ⟨ticket_update_owner_delivery.1 "gpt-4" "job-1" errHandler 9 dbPending 1,
   (ticket_update_owner_delivery.2 allOk sMulti 42 [] 7 (by decide)).2.2.2
     1 {2, 1} (by decide) (by decide) rfl⟩

/-! Claim C9: invariant-preservation machinery. -/

/-- The empty registry is consistent. -/
theorem INV_initConnState : ChanConsistent initConnState ∧ NoEmptyEntry initConnState := by
  refine ⟨fun ws u => ?_, fun u conns h => ?_⟩
  · constructor
    · intro h
      rw [show initConnState.websocket_users.lookup ws = none from AList.lookup_empty ws] at h
      cases h
    · intro h
      rw [show initConnState.active_connections.lookup u = none from AList.lookup_empty u] at h
      simp at h
  · rw [show initConnState.active_connections.lookup u = none from AList.lookup_empty u] at h
    cases h

/-- `disconnect` preserves registry consistency. -/
theorem INV_disconnect {s : ConnState} (h1 : ChanConsistent s) (h2 : NoEmptyEntry s)
    (ws : Nat) : ChanConsistent (disconnect s ws) ∧ NoEmptyEntry (disconnect s ws) := by
  cases hw : s.websocket_users.lookup ws with
  | none =>
    rw [disconnect_of_not_registered hw]
    exact ⟨h1, h2⟩
  | some u =>
    have hwu0 : ws ∈ (s.active_connections.lookup u).getD ∅ := (h1 ws u).mp hw
    cases hu : s.active_connections.lookup u with
    | none =>
      rw [hu] at hwu0
      simp at hwu0
    | some conns =>
      rw [hu] at hwu0
      have hwc : ws ∈ conns := hwu0
      have hwu' : ∀ ws', (disconnect s ws).websocket_users.lookup ws' =
          if ws' = ws then none else s.websocket_users.lookup ws' := by
        intro ws'
        by_cases hws' : ws' = ws
        · subst hws'
          rw [if_pos rfl]
          exact disconnect_lookup_self s ws'
        · rw [if_neg hws']
          exact disconnect_lookup_other s hws'
      have hac' : ∀ u', ((disconnect s ws).active_connections.lookup u').getD ∅ =
          if u' = u then conns.erase ws else (s.active_connections.lookup u').getD ∅ := by
        intro u'
        unfold disconnect
        rw [hw]
        dsimp only
        rw [hu]
        dsimp only
        by_cases hE : conns.erase ws = ∅
        · rw [if_pos hE]
          by_cases hu' : u' = u
          · subst hu'
            rw [if_pos rfl, AList.lookup_erase, hE]
            rfl
          · rw [if_neg hu', AList.lookup_erase_ne hu']
        · rw [if_neg hE]
          by_cases hu' : u' = u
          · subst hu'
            rw [if_pos rfl, AList.lookup_insert]
            rfl
          · rw [if_neg hu', AList.lookup_insert_ne hu']
      constructor
      · intro ws' u'
        rw [hwu' ws', hac' u']
        by_cases hws' : ws' = ws
        · subst hws'
          rw [if_pos rfl]
          constructor
          · intro h
            cases h
          · intro hmem
            by_cases hu' : u' = u
            · rw [if_pos hu'] at hmem
              exact absurd hmem (Finset.not_mem_erase ws' conns)
            · rw [if_neg hu'] at hmem
              have hthis := (h1 ws' u').mpr hmem
              rw [hw] at hthis
              exact absurd (Option.some.inj hthis).symm hu'
        · rw [if_neg hws']
          by_cases hu' : u' = u
          · subst hu'
            rw [if_pos rfl, Finset.mem_erase]
            constructor
            · intro h
              refine ⟨hws', ?_⟩
              have hthis := (h1 ws' u').mp h
              rw [hu] at hthis
              exact hthis
            · rintro ⟨-, hmem⟩
              exact (h1 ws' u').mpr (by rw [hu]; exact hmem)
          · rw [if_neg hu']
            exact h1 ws' u'
      · intro u' conns' hl
        unfold disconnect at hl
        rw [hw] at hl
        dsimp only at hl
        rw [hu] at hl
        dsimp only at hl
        by_cases hE : conns.erase ws = ∅
        · rw [if_pos hE] at hl
          by_cases hu' : u' = u
          · subst hu'
            rw [AList.lookup_erase] at hl
            cases hl
          · rw [AList.lookup_erase_ne hu'] at hl
            exact h2 u' conns' hl
        · rw [if_neg hE] at hl
          by_cases hu' : u' = u
          · subst hu'
            rw [AList.lookup_insert] at hl
            cases hl
            exact hE
          · rw [AList.lookup_insert_ne hu'] at hl
            exact h2 u' conns' hl

/-- Folding disconnects preserves registry consistency. -/
theorem INV_foldl_disconnect : ∀ (l : List Nat) {s : ConnState},
    ChanConsistent s → NoEmptyEntry s →
    ChanConsistent (l.foldl disconnect s) ∧ NoEmptyEntry (l.foldl disconnect s) := by
  intro l
  induction l with
  | nil => exact fun h1 h2 => ⟨h1, h2⟩
  | cons a l ih =>
    intro s h1 h2
    obtain ⟨j1, j2⟩ := INV_disconnect h1 h2 a
    exact ih j1 j2

/-- Registering a fresh channel preserves registry consistency. -/
theorem INV_connect_insert {s : ConnState} (h1 : ChanConsistent s) (h2 : NoEmptyEntry s)
    {ws u : Nat} (hfresh : s.websocket_users.lookup ws = none) :
    ChanConsistent ⟨s.active_connections.insert u (insert ws ((s.active_connections.lookup u).getD ∅)), s.websocket_users.insert ws u⟩ ∧
    NoEmptyEntry ⟨s.active_connections.insert u (insert ws ((s.active_connections.lookup u).getD ∅)), s.websocket_users.insert ws u⟩ := by
  constructor
  · intro ws' u'
    by_cases hws' : ws' = ws
    · subst hws'
      rw [AList.lookup_insert]
      by_cases hu' : u' = u
      · subst hu'
        rw [AList.lookup_insert]
        simp
      · rw [AList.lookup_insert_ne hu']
        constructor
        · intro h
          exact absurd (Option.some.inj h).symm hu'
        · intro hmem
          have hthis := (h1 ws' u').mpr hmem
          rw [hfresh] at hthis
          cases hthis
    · rw [AList.lookup_insert_ne hws']
      by_cases hu' : u' = u
      · subst hu'
        rw [AList.lookup_insert]
        rw [show ((some (insert ws ((s.active_connections.lookup u').getD ∅))).getD ∅) = insert ws ((s.active_connections.lookup u').getD ∅) from rfl, Finset.mem_insert]
        constructor
        · intro h
          exact Or.inr ((h1 ws' u').mp h)
        · rintro (h | h)
          · exact absurd h hws'
          · exact (h1 ws' u').mpr h
      · rw [AList.lookup_insert_ne hu']
        exact h1 ws' u'
  · intro u' conns' hl
    dsimp only at hl
    by_cases hu' : u' = u
    · subst hu'
      rw [AList.lookup_insert] at hl
      cases hl
      exact Finset.insert_ne_empty ws _
    · rw [AList.lookup_insert_ne hu'] at hl
      exact h2 u' conns' hl

/-- `send_personal_message` preserves registry consistency. -/
theorem INV_send_personal {s : ConnState} (h1 : ChanConsistent s) (h2 : NoEmptyEntry s)
    (sendOk : Nat → Bool) (m : OutMsg) (ws : Nat) :
    ChanConsistent (send_personal_message sendOk s m ws).1 ∧
    NoEmptyEntry (send_personal_message sendOk s m ws).1 := by
  unfold send_personal_message
  by_cases h : sendOk ws = true
  · rw [if_pos h]
    exact ⟨h1, h2⟩
  · rw [if_neg h]
    exact INV_disconnect h1 h2 ws

/-- `connect` on a fresh channel preserves registry consistency. -/
theorem INV_connect {s : ConnState} (h1 : ChanConsistent s) (h2 : NoEmptyEntry s)
    (sendOk : Nat → Bool) (ws u : Nat) (hfresh : s.websocket_users.lookup ws = none) :
    ChanConsistent (connect sendOk s ws u).1 ∧ NoEmptyEntry (connect sendOk s ws u).1 := by
  unfold connect
  dsimp only
  obtain ⟨j1, j2⟩ := INV_connect_insert h1 h2 hfresh
  exact INV_send_personal j1 j2 sendOk _ ws

/-- `send_message_to_user` preserves registry consistency. -/
theorem INV_send_message_to_user {s : ConnState} (h1 : ChanConsistent s)
    (h2 : NoEmptyEntry s) (sendOk : Nat → Bool) (m : OutMsg) (u : Nat) :
    ChanConsistent (send_message_to_user sendOk s m u).1 ∧
    NoEmptyEntry (send_message_to_user sendOk s m u).1 := by
  unfold send_message_to_user
  cases hu : s.active_connections.lookup u with
  | none => exact ⟨h1, h2⟩
  | some conns =>
    dsimp only
    exact INV_foldl_disconnect _ h1 h2

/-- `broadcast_to_all` preserves registry consistency. -/
theorem INV_broadcast {s : ConnState} (h1 : ChanConsistent s) (h2 : NoEmptyEntry s)
    (sendOk : Nat → Bool) (m : OutMsg) :
    ChanConsistent (broadcast_to_all sendOk s m).1 ∧
    NoEmptyEntry (broadcast_to_all sendOk s m).1 := by
  unfold broadcast_to_all
  exact INV_foldl_disconnect _ h1 h2

/-- `send_ticket_update` preserves registry consistency. -/
theorem INV_send_ticket_update {s : ConnState} (h1 : ChanConsistent s)
    (h2 : NoEmptyEntry s) (sendOk : Nat → Bool) (tid : Nat)
    (d : List (String × String)) (uid : Option Nat) :
    ChanConsistent (send_ticket_update sendOk s tid d uid).1 ∧
    NoEmptyEntry (send_ticket_update sendOk s tid d uid).1 := by
  unfold send_ticket_update
  by_cases h : truthyNat uid = true
  · rw [if_pos h]
    exact INV_send_message_to_user h1 h2 sendOk _ _
  · rw [if_neg h]
    exact INV_broadcast h1 h2 sendOk _

/-- `handle_client_message` preserves registry consistency. -/
theorem INV_handle_client_message {s : ConnState} (h1 : ChanConsistent s)
    (h2 : NoEmptyEntry s) (sendOk : Nat → Bool) (ws : Nat) (msg : ClientMsg) :
    ChanConsistent (handle_client_message sendOk s ws msg).1 ∧
    NoEmptyEntry (handle_client_message sendOk s ws msg).1 := by
  unfold handle_client_message
  by_cases hping : msg.type = some "ping"
  · rw [if_pos hping]
    exact INV_send_personal h1 h2 sendOk _ ws
  · rw [if_neg hping]
    by_cases hsub : msg.type = some "subscribe_ticket"
    · rw [if_pos hsub]
      dsimp only
      by_cases hcond : (truthyNat msg.ticket_id && truthyNat (s.websocket_users.lookup ws)) = true
      · rw [if_pos hcond]
        exact INV_send_personal h1 h2 sendOk _ ws
      · rw [if_neg hcond]
        exact ⟨h1, h2⟩
    · rw [if_neg hsub]
      exact ⟨h1, h2⟩

/-- Every state reachable by fresh connects, disconnects and sends is
consistent. -/
theorem INV_reachable : ∀ s, Reachable s → ChanConsistent s ∧ NoEmptyEntry s := by
  intro s h
  induction h with
  | init => exact INV_initConnState
  | connect_step sendOk s ws u _ hfresh ih => exact INV_connect ih.1 ih.2 sendOk ws u hfresh
  | disconnect_step s ws _ ih => exact INV_disconnect ih.1 ih.2 ws
  | personal_step sendOk s m ws _ ih => exact INV_send_personal ih.1 ih.2 sendOk m ws
  | send_user_step sendOk s m u _ ih => exact INV_send_message_to_user ih.1 ih.2 sendOk m u
  | broadcast_step sendOk s m _ ih => exact INV_broadcast ih.1 ih.2 sendOk m
  | ticket_update_step sendOk s tid d uid _ ih => exact INV_send_ticket_update ih.1 ih.2 sendOk tid d uid
  | client_msg_step sendOk s ws msg _ ih => exact INV_handle_client_message ih.1 ih.2 sendOk ws msg

/-- Summing the per-entry set sizes of a key-nodup association list equals
the sum of looked-up set sizes over its key set. -/
theorem sum_card_map_eq : ∀ (l : List (Sigma (fun _ : Nat => Finset Nat))), l.NodupKeys →
    (l.map (fun e => e.2.card)).sum =
      ∑ u ∈ l.keys.toFinset, ((l.dlookup u).getD ∅).card := by
  intro l
  induction l with
  | nil =>
    intro _
    simp
  | cons e l ih =>
    intro hnd
    obtain ⟨a, b⟩ := e
    rw [List.nodupKeys_cons] at hnd
    obtain ⟨ha, hnd'⟩ := hnd
    have hafin : a ∉ l.keys.toFinset := fun hc => ha (List.mem_toFinset.mp hc)
    rw [List.map_cons, List.sum_cons, List.keys_cons, List.toFinset_cons,
      Finset.sum_insert hafin, List.dlookup_cons_eq]
    have hcongr : ∀ u ∈ l.keys.toFinset,
        ((List.dlookup u (⟨a, b⟩ :: l)).getD ∅).card = ((l.dlookup u).getD ∅).card := by
      intro u hu
      have hne : u ≠ a := fun hc => ha (hc ▸ List.mem_toFinset.mp hu)
      rw [List.dlookup_cons_ne _ _ hne]
    rw [Finset.sum_congr rfl hcongr, ih hnd']
    rfl

/-- `get_connection_count` as a `Finset` sum over the user-key set. -/
theorem get_connection_count_eq_sum (s : ConnState) :
    get_connection_count s =
      ∑ u ∈ s.active_connections.keys.toFinset,
        ((s.active_connections.lookup u).getD ∅).card :=
  sum_card_map_eq s.active_connections.entries s.active_connections.nodupKeys

/-- In a consistent registry the total connection count (sum of set sizes)
equals the number of entries of the channel-to-identity map. -/
theorem count_eq_of_INV {s : ConnState} (h1 : ChanConsistent s) (_h2 : NoEmptyEntry s) :
    get_connection_count s = s.websocket_users.entries.length := by
  classical
  have hdisj : ∀ x ∈ s.active_connections.keys.toFinset,
      ∀ y ∈ s.active_connections.keys.toFinset, x ≠ y →
      Disjoint ((s.active_connections.lookup x).getD ∅)
        ((s.active_connections.lookup y).getD ∅) := by
    intro x _ y _ hxy
    rw [Finset.disjoint_left]
    intro ws hx hy
    have h1x := (h1 ws x).mpr hx
    have h1y := (h1 ws y).mpr hy
    rw [h1x] at h1y
    exact hxy (Option.some.inj h1y)
  have hbi : s.active_connections.keys.toFinset.biUnion
      (fun u => (s.active_connections.lookup u).getD ∅) =
      s.websocket_users.keys.toFinset := by
    ext ws
    rw [Finset.mem_biUnion]
    constructor
    · rintro ⟨u, _, hw⟩
      have hl := (h1 ws u).mpr hw
      have hmem : ws ∈ s.websocket_users := by
        rw [← AList.lookup_isSome, hl]
        rfl
      exact List.mem_toFinset.mpr (AList.mem_keys.mp hmem)
    · intro hws
      have hmem : ws ∈ s.websocket_users := AList.mem_keys.mpr (List.mem_toFinset.mp hws)
      obtain ⟨u, hu⟩ := Option.isSome_iff_exists.mp (AList.lookup_isSome.mpr hmem)
      have hchan : ws ∈ (s.active_connections.lookup u).getD ∅ := (h1 ws u).mp hu
      refine ⟨u, ?_, hchan⟩
      cases hcu : s.active_connections.lookup u with
      | none =>
        rw [hcu] at hchan
        simp at hchan
      | some conns =>
        have humem : u ∈ s.active_connections := by
          rw [← AList.lookup_isSome, hcu]
          rfl
        exact List.mem_toFinset.mpr (AList.mem_keys.mp humem)
  calc get_connection_count s
      = ∑ u ∈ s.active_connections.keys.toFinset,
          ((s.active_connections.lookup u).getD ∅).card := get_connection_count_eq_sum s
    _ = (s.active_connections.keys.toFinset.biUnion
          (fun u => (s.active_connections.lookup u).getD ∅)).card :=
        (Finset.card_biUnion hdisj).symm
    _ = s.websocket_users.keys.toFinset.card := by rw [hbi]
    _ = s.websocket_users.keys.length :=
        List.toFinset_card_of_nodup s.websocket_users.nodupKeys
    _ = s.websocket_users.entries.length := List.length_map s.websocket_users.entries Sigma.fst

/-! Claim C9: the claim theorems. -/

/-- C9 counterexample: re-connecting the same channel handle under a second
identity breaks both stated invariants — after `connect(ch 1, id 1)` then
`connect(ch 1, id 2)` the channel is still in identity 1's set while the
channel-to-identity map says identity 2, and the summed connection count
is 2 while the channel-to-identity map has a single entry — so the maps are
not mutually consistent under every operation sequence. -/
theorem double_connect_breaks_registry :
    (1 ∈ (sClash.active_connections.lookup 1).getD ∅ ∧
      sClash.websocket_users.lookup 1 = some 2) ∧
    get_connection_count sClash = 2 ∧
    sClash.websocket_users.entries.length = 1 := by
  exact ⟨⟨by decide, by decide⟩, by decide, by decide⟩

/-- C9 amended: under every operation sequence in which `connect` is only
invoked on channel handles not currently registered (each accepted
websocket is a fresh object), the two maps stay mutually consistent: a
channel maps to identity u exactly when it is in u's channel set, no
identity keeps an empty set, and the total connection count equals the
number of channel-to-identity entries. -/
theorem registry_consistent_and_counted :
    ∀ s, Reachable s →
      (∀ ws u, s.websocket_users.lookup ws = some u ↔
        ws ∈ (s.active_connections.lookup u).getD ∅) ∧
      (∀ u conns, s.active_connections.lookup u = some conns → conns ≠ ∅) ∧
      get_connection_count s = s.websocket_users.entries.length := by
  intro s h
  obtain ⟨h1, h2⟩ := INV_reachable s h
  exact ⟨h1, h2, count_eq_of_INV h1 h2⟩

/-- C9 witness: the amended theorem evaluated on the registry built by two
fresh connects. -/
theorem registry_consistent_witness :
    get_connection_count sTwo = sTwo.websocket_users.entries.length := by
  have hreach : Reachable sTwo :=
    Reachable.connect_step allOk sOne 2 7
      (Reachable.connect_step allOk initConnState 1 7 Reachable.init rfl) rfl
  exact (registry_consistent_and_counted sTwo hreach).2.2

end AmidaDLH
